import Mathlib

/-!
Verification of the estimation logic of the EstimationTool repository.

The development shallowly embeds the calculation core of the application:
the hour-mapping lookup (client/src/lib/estimation-engine.ts and the
/api/hour-mapping routes), the day-rounding utilities, the aggregation and
line-item handlers of the estimation UI components, and the persistence
path (server/storage.ts createEstimation and the POST /api/estimations
route).  JavaScript numbers are modelled as rationals, JS truthiness
defaults are made explicit, and the database is explicit state passed
through the storage operations.
-/

namespace EstimationTool

/-- JS truthiness default for an optional string: `s || d` yields `d` when
`s` is null/undefined or the empty string, and `s` otherwise. -/
def jsStrOr (s : Option String) (d : String) : String :=
  match s with
  | none => d
  | some s => if s = "" then d else s

/-- JS truthiness default for an optional number: `x || d` yields `d` when
`x` is null/undefined or `0`, and `x` otherwise. -/
def jsNumOr (x : Option ℚ) (d : ℚ) : ℚ :=
  match x with
  | none => d
  | some x => if x = 0 then d else x

/-- One row of the Hour Mapping table: keyed by complexity name and screen
behavior name, carrying an hours value. -/
structure HourMappingRow where
  complexityName : String
  screenBehaviorName : String
  hours : ℚ
deriving DecidableEq, Repr

/-- Modelled from the spec: `storage.getHoursByComplexityAndBehavior` is not
present in src/server/storage.ts (only its caller, the route
GET /api/hour-mapping/:complexity/:behavior, is in the routes file).  The
spec's Hour Mapping Provider is
`lookupHours(complexityName, screenTypeName) -> integer | absent`, the table
being unique per (complexityName, screenBehaviorName) pair. -/
def lookupHours (table : List HourMappingRow)
    (complexityName screenBehaviorName : String) : Option ℚ :=
  (table.find? (fun r =>
    r.complexityName == complexityName &&
    r.screenBehaviorName == screenBehaviorName)).map (fun r => r.hours)

/-- Translated from `SmartEstimationEngine.getHoursFromMapping` in
src/client/src/lib/estimation-engine.ts: an empty complexity or behavior
name short-circuits to 0; otherwise the route returns the stored lookup and
the client evaluates `data.hours || 0` (absent row, i.e. undefined hours,
gives 0). -/
def getHoursFromMapping (table : List HourMappingRow)
    (complexityName screenBehavior : String) : ℚ :=
  if complexityName = "" ∨ screenBehavior = "" then 0
  else jsNumOr (lookupHours table complexityName screenBehavior) 0

/-- Table well-formedness established by the POST /api/hour-mapping route
(src/unnamed routes file): a mapping row is only created when
`complexityName` and `screenBehavior` are truthy (non-empty) and hours is a
non-negative number. -/
def validMappingTable (table : List HourMappingRow) : Prop :=
  ∀ r ∈ table, r.complexityName ≠ "" ∧ r.screenBehaviorName ≠ "" ∧ 0 ≤ r.hours

instance (table : List HourMappingRow) : Decidable (validMappingTable table) :=
  List.decidableBAll _ table

/-- Claim C1: for every (complexityName, screenBehaviorName) pair that has a
row in the Hour Mapping table (of well-formed rows, as the creation route
enforces), the calculator result equals the mapped hours value exactly. -/
theorem getHoursFromMapping_eq_lookup (table : List HourMappingRow)
    (hval : validMappingTable table) (c s : String) (h : ℚ)
    (hrow : lookupHours table c s = some h) :
    getHoursFromMapping table c s = h := by
  unfold lookupHours at hrow
  rw [Option.map_eq_some'] at hrow
  obtain ⟨r, hfind, hh⟩ := hrow
  have hmem : r ∈ table := List.mem_of_find?_eq_some hfind
  have hpred := List.find?_some hfind
  simp only [Bool.and_eq_true, beq_iff_eq] at hpred
  obtain ⟨hc, hs⟩ := hpred
  have hcne : c ≠ "" := hc ▸ (hval r hmem).1
  have hsne : s ≠ "" := hs ▸ (hval r hmem).2.1
  unfold getHoursFromMapping
  rw [if_neg (by push_neg; exact ⟨hcne, hsne⟩)]
  unfold lookupHours
  rw [hfind]
  by_cases h0 : h = 0 <;> simp [jsNumOr, hh, h0]

/-- Witness for C1 on a concrete table: the pair (Medium, Dynamic) is mapped
to 12 and the calculator returns 12. -/
theorem getHoursFromMapping_eq_lookup_witness :
    getHoursFromMapping [⟨"Medium", "Dynamic", 12⟩] "Medium" "Dynamic" = 12 :=
  getHoursFromMapping_eq_lookup [⟨"Medium", "Dynamic", 12⟩] (by decide)
    "Medium" "Dynamic" 12 (by decide)

/-- Claim C5: for every (complexity, screen-type) pair with no row in the
Hour Mapping table, the calculator returns 0. -/
theorem getHoursFromMapping_eq_zero_of_absent (table : List HourMappingRow)
    (c s : String) (habs : lookupHours table c s = none) :
    getHoursFromMapping table c s = 0 := by
  unfold getHoursFromMapping
  split
  · rfl
  · rw [habs]
    rfl

/-- Witness for C5 on a concrete table: the pair (Complex, Legacy) has no
row and the calculator returns 0. -/
theorem getHoursFromMapping_eq_zero_of_absent_witness :
    getHoursFromMapping [⟨"Medium", "Dynamic", 12⟩] "Complex" "Legacy" = 0 :=
  getHoursFromMapping_eq_zero_of_absent [⟨"Medium", "Dynamic", 12⟩]
    "Complex" "Legacy" (by decide)

/-- Complexity master row (shared/schema complexityMaster): the estimation
code uses its id, name, hours weight and optional decimal multiplier (the
multiplier column is modelled as the parsed rational, none for null or
empty). -/
structure ComplexityMaster where
  id : Nat
  name : String
  hours : ℚ
  multiplier : Option ℚ
deriving DecidableEq, Repr

/-- Screen type master row (a.k.a. screen behavior), same shape as
ComplexityMaster. -/
structure ScreenTypeMaster where
  id : Nat
  name : String
  hours : ℚ
  multiplier : Option ℚ
deriving DecidableEq, Repr

/-- Generic screen type row: the fields read by
`SmartEstimationEngine.getAllowedComplexities` (minComplexity and
maxComplexity are nullable text columns). -/
structure GenericScreenType where
  name : String
  minComplexity : Option String
  maxComplexity : Option String
deriving DecidableEq, Repr

/-- The fixed complexity ladder used by the engine. -/
def complexityOrder : List String := ["Simple", "Medium", "Complex"]

/-- JS `Array.prototype.indexOf`: first index of the value, -1 when the
value does not occur. -/
def jsIndexOf : List String → String → Int
  | [], _ => -1
  | x :: xs, s =>
    if x = s then 0
    else
      let r := jsIndexOf xs s
      if r = -1 then -1 else r + 1

/-- Translated from `SmartEstimationEngine.getAllowedComplexities` in
src/client/src/lib/estimation-engine.ts: clamp the allowed complexities to
the index interval of the screen type's (defaulted) min/max bounds in the
fixed Simple/Medium/Complex ladder. -/
def getAllowedComplexities (screenType : GenericScreenType)
    (allComplexities : List ComplexityMaster) : List ComplexityMaster :=
  let minIndex := jsIndexOf complexityOrder (jsStrOr screenType.minComplexity "Simple")
  let maxIndex := jsIndexOf complexityOrder (jsStrOr screenType.maxComplexity "Complex")
  allComplexities.filter (fun complexity =>
    let currentIndex := jsIndexOf complexityOrder complexity.name
    decide (minIndex ≤ currentIndex ∧ currentIndex ≤ maxIndex))

theorem jsIndexOf_nonneg_of_mem {l : List String} {s : String} (h : s ∈ l) :
    0 ≤ jsIndexOf l s := by
  induction l with
  | nil => cases h
  | cons x xs ih =>
    unfold jsIndexOf
    by_cases hx : x = s
    · simp [hx]
    · have hs : s ∈ xs := by
        cases h with
        | head => exact absurd rfl hx
        | tail _ h => exact h
      have := ih hs
      simp only [if_neg hx]
      split <;> omega

theorem mem_of_jsIndexOf_nonneg {l : List String} {s : String}
    (h : 0 ≤ jsIndexOf l s) : s ∈ l := by
  induction l with
  | nil => simp [jsIndexOf] at h
  | cons x xs ih =>
    unfold jsIndexOf at h
    by_cases hx : x = s
    · exact hx ▸ List.mem_cons_self x xs
    · simp only [if_neg hx] at h
      refine List.mem_cons_of_mem x (ih ?_)
      split at h <;> omega

/-- Claim C10: when a screen type's minComplexity and maxComplexity bounds
are each unset (null or empty string) or one of Simple/Medium/Complex, every
complexity level returned by getAllowedComplexities is named Simple, Medium
or Complex; levels with any other name are excluded regardless of the
configured bounds. -/
theorem getAllowedComplexities_names_in_ladder (st : GenericScreenType)
    (cs : List ComplexityMaster)
    (hmin : st.minComplexity = none ∨ st.minComplexity = some "" ∨
      ∃ s ∈ complexityOrder, st.minComplexity = some s)
    (hmax : st.maxComplexity = none ∨ st.maxComplexity = some "" ∨
      ∃ s ∈ complexityOrder, st.maxComplexity = some s)
    (c : ComplexityMaster) (hc : c ∈ getAllowedComplexities st cs) :
    c.name ∈ complexityOrder := by
  clear hmax
  have hminMem : jsStrOr st.minComplexity "Simple" ∈ complexityOrder := by
    rcases hmin with h | h | ⟨s, hs, h⟩
    · simp [jsStrOr, h, complexityOrder]
    · simp [jsStrOr, h, complexityOrder]
    · have hsne : s ≠ "" := by
        intro he
        rw [he] at hs
        simp [complexityOrder] at hs
      simp [jsStrOr, h, hsne, hs]
  have hminNonneg : 0 ≤ jsIndexOf complexityOrder (jsStrOr st.minComplexity "Simple") :=
    jsIndexOf_nonneg_of_mem hminMem
  unfold getAllowedComplexities at hc
  rw [List.mem_filter] at hc
  have hrange := of_decide_eq_true hc.2
  exact mem_of_jsIndexOf_nonneg (le_trans hminNonneg hrange.1)

/-- Witness for C10: a screen type bounded to Medium..Complex over a master
list containing a level named Custom keeps only ladder names; in particular
the returned element named Medium has its name in the ladder. -/
theorem getAllowedComplexities_names_in_ladder_witness :
    (⟨2, "Medium", 4, none⟩ : ComplexityMaster).name ∈ complexityOrder :=
  getAllowedComplexities_names_in_ladder
    ⟨"CRUD", some "Medium", none⟩
    [⟨1, "Simple", 2, none⟩, ⟨2, "Medium", 4, none⟩, ⟨3, "Custom", 9, none⟩]
    (Or.inr (Or.inr ⟨"Medium", by decide, rfl⟩))
    (Or.inl rfl)
    ⟨2, "Medium", 4, none⟩
    (by decide)

namespace EstimationEngine

/-- Translated from `calculateEstimatedDays` in
src/client/src/lib/estimation-engine.ts: totals of at most 4 hours count as
half a day, anything larger as ceil(totalHours / 8) days. -/
def calculateEstimatedDays (totalHours : ℚ) : ℚ :=
  if totalHours ≤ 4 then 1/2 else ((⌈totalHours / 8⌉ : ℤ) : ℚ)

/-- Translated from `formatDays` in src/client/src/lib/estimation-engine.ts. -/
def formatDays (days : ℚ) : String :=
  if days = 1/2 then "0.5 Day" else toString days

end EstimationEngine

/-- Claim C2: calculateEstimatedDays returns 0.5 for every total of at most
4 hours and ceil(totalHours / 8) otherwise; in particular 4 gives 0.5, 5
gives 1, 8 gives 1, 9 gives 2 and 0 gives 0.5. -/
theorem calculateEstimatedDays_spec :
    (∀ t : ℚ, t ≤ 4 → EstimationEngine.calculateEstimatedDays t = 1/2) ∧
    (∀ t : ℚ, ¬ t ≤ 4 →
      EstimationEngine.calculateEstimatedDays t = ((⌈t / 8⌉ : ℤ) : ℚ)) ∧
    EstimationEngine.calculateEstimatedDays 4 = 1/2 ∧
    EstimationEngine.calculateEstimatedDays 5 = 1 ∧
    EstimationEngine.calculateEstimatedDays 8 = 1 ∧
    EstimationEngine.calculateEstimatedDays 9 = 2 ∧
    EstimationEngine.calculateEstimatedDays 0 = 1/2 := by
  refine ⟨?_, ?_, ?_, ?_, ?_, ?_, ?_⟩
  · intro t ht
    simp [EstimationEngine.calculateEstimatedDays, ht]
  · intro t ht
    simp [EstimationEngine.calculateEstimatedDays, ht]
  · norm_num [EstimationEngine.calculateEstimatedDays]
  · have h : (⌈(5:ℚ)/8⌉ : ℤ) = 1 := by rw [Int.ceil_eq_iff] <;> norm_num
    rw [EstimationEngine.calculateEstimatedDays, if_neg (by norm_num), h]
    norm_num
  · have h : (⌈(8:ℚ)/8⌉ : ℤ) = 1 := by rw [Int.ceil_eq_iff] <;> norm_num
    rw [EstimationEngine.calculateEstimatedDays, if_neg (by norm_num), h]
    norm_num
  · have h : (⌈(9:ℚ)/8⌉ : ℤ) = 2 := by rw [Int.ceil_eq_iff] <;> norm_num
    rw [EstimationEngine.calculateEstimatedDays, if_neg (by norm_num), h]
    norm_num
  · norm_num [EstimationEngine.calculateEstimatedDays]

/-- Witness for C2: the general clauses applied at concrete totals 3 and 20
agree with direct evaluation. -/
theorem calculateEstimatedDays_spec_witness :
    EstimationEngine.calculateEstimatedDays 3 = 1/2 ∧
    EstimationEngine.calculateEstimatedDays 20 = ((⌈(20 : ℚ) / 8⌉ : ℤ) : ℚ) :=
  ⟨calculateEstimatedDays_spec.1 3 (by norm_num),
   calculateEstimatedDays_spec.2.1 20 (by norm_num)⟩

/-- One line item of the estimation form
(EstimationScreenData in src/client/src/lib/types.ts). -/
structure EstimationScreenData where
  screenId : Nat
  complexityId : Nat
  screenTypeId : Nat
  calculatedHours : ℚ
deriving DecidableEq, Repr

namespace EstimationStepper

/-- Translated from `calculateTotalHours` in
src/client/src/components/estimation/estimation-stepper.tsx:
`formData.screens.reduce((sum, screen) => sum + screen.calculatedHours, 0)`. -/
def calculateTotalHours (screens : List EstimationScreenData) : ℚ :=
  screens.foldl (fun sum screen => sum + screen.calculatedHours) 0

/-- Translated from the local `calculateEstimatedDays` in
src/client/src/components/estimation/estimation-stepper.tsx:
`Math.ceil(calculateTotalHours() / 8)`, with no half-day branch. -/
def calculateEstimatedDays (screens : List EstimationScreenData) : ℚ :=
  ((⌈calculateTotalHours screens / 8⌉ : ℤ) : ℚ)

end EstimationStepper

namespace EstimationsPage

/-- Translated from src/client/src/pages/estimations.tsx:
`const estimatedDays = Math.ceil(totalHours / 8)`. -/
def estimatedDays (totalHours : ℚ) : ℚ :=
  ((⌈totalHours / 8⌉ : ℤ) : ℚ)

end EstimationsPage

namespace ComplexityPage

/-- One estimation item of the simplified create-estimation page
(src/client/src/pages/complexity.tsx). -/
structure EstimationItem where
  id : String
  screenType : String
  complexity : String
  screenTypeName : String
  hours : ℚ
deriving DecidableEq, Repr

/-- Translated from src/client/src/pages/complexity.tsx:
`estimationItems.reduce((sum, item) => sum + item.hours, 0)`. -/
def totalHours (items : List EstimationItem) : ℚ :=
  items.foldl (fun sum item => sum + item.hours) 0

/-- Translated from src/client/src/pages/complexity.tsx:
`const estimatedDays = calculateEstimatedDays(totalHours)` (the shared
library rule). -/
def estimatedDays (items : List EstimationItem) : ℚ :=
  EstimationEngine.calculateEstimatedDays (totalHours items)

end ComplexityPage

theorem foldl_add_eq_sum {α : Type} (f : α → ℚ) (l : List α) (a : ℚ) :
    l.foldl (fun sum x => sum + f x) a = a + (l.map f).sum := by
  induction l generalizing a with
  | nil => simp
  | cons x xs ih => simp [ih, add_assoc]

/-- Claim C9: the aggregators (the stepper's calculateTotalHours and the
complexity page's totalHours) return the sum of the items' hours, and 0 on
the empty list. -/
theorem aggregator_total_eq_sum :
    (∀ screens : List EstimationScreenData,
      EstimationStepper.calculateTotalHours screens =
        (screens.map (fun s => s.calculatedHours)).sum) ∧
    EstimationStepper.calculateTotalHours [] = 0 ∧
    (∀ items : List ComplexityPage.EstimationItem,
      ComplexityPage.totalHours items = (items.map (fun i => i.hours)).sum) ∧
    ComplexityPage.totalHours [] = 0 := by
  refine ⟨fun screens => ?_, rfl, fun items => ?_, rfl⟩
  · rw [EstimationStepper.calculateTotalHours, foldl_add_eq_sum, zero_add]
  · rw [ComplexityPage.totalHours, foldl_add_eq_sum, zero_add]

/-- Counterexample for C6: at a total of exactly 4 hours the estimations
page (and the stepper on a one-item form totalling 4 hours) computes 1 day
while the library rule calculateEstimatedDays gives 0.5, so the inline day
computations are not extensionally equal to calculateEstimatedDays. -/
theorem day_rounding_inconsistent :
    EstimationsPage.estimatedDays 4 = 1 ∧
    EstimationStepper.calculateEstimatedDays [⟨1, 1, 1, 4⟩] = 1 ∧
    EstimationEngine.calculateEstimatedDays 4 = 1/2 ∧
    EstimationsPage.estimatedDays 4 ≠ EstimationEngine.calculateEstimatedDays 4 := by
  have htot : EstimationStepper.calculateTotalHours [⟨1, 1, 1, 4⟩] = 4 := by
    norm_num [EstimationStepper.calculateTotalHours]
  have hceil : (⌈(4:ℚ)/8⌉ : ℤ) = 1 := by rw [Int.ceil_eq_iff] <;> norm_num
  refine ⟨?_, ?_, ?_, ?_⟩
  · rw [EstimationsPage.estimatedDays, hceil]; norm_num
  · rw [EstimationStepper.calculateEstimatedDays, htot, hceil]; norm_num
  · norm_num [EstimationEngine.calculateEstimatedDays]
  · rw [EstimationsPage.estimatedDays, hceil]
    norm_num [EstimationEngine.calculateEstimatedDays]

/-- Claim C6 as amended: the estimation stepper and the estimations page
compute days as ceil(totalHours / 8) unconditionally, which agrees with the
library rule calculateEstimatedDays exactly when totalHours exceeds 4; on
totals of at most 4 hours they differ (1 or 0 versus 0.5).  Only the
complexity page applies calculateEstimatedDays itself, so it agrees on every
input. -/
theorem day_rounding_agreement_above_four :
    (∀ t : ℚ, 4 < t →
      EstimationsPage.estimatedDays t = EstimationEngine.calculateEstimatedDays t) ∧
    (∀ screens : List EstimationScreenData,
      4 < EstimationStepper.calculateTotalHours screens →
      EstimationStepper.calculateEstimatedDays screens =
        EstimationEngine.calculateEstimatedDays (EstimationStepper.calculateTotalHours screens)) ∧
    (∀ items : List ComplexityPage.EstimationItem,
      ComplexityPage.estimatedDays items =
        EstimationEngine.calculateEstimatedDays (ComplexityPage.totalHours items)) := by
  refine ⟨fun t ht => ?_, fun screens hs => ?_, fun items => rfl⟩
  · rw [EstimationsPage.estimatedDays, EstimationEngine.calculateEstimatedDays,
      if_neg (not_le.mpr ht)]
  · rw [EstimationStepper.calculateEstimatedDays,
      EstimationEngine.calculateEstimatedDays, if_neg (not_le.mpr hs)]

/-- Witness for the amended C6: at a total of 12 hours both inline rules
agree with the library rule. -/
theorem day_rounding_agreement_above_four_witness :
    EstimationsPage.estimatedDays 12 = EstimationEngine.calculateEstimatedDays 12 ∧
    EstimationStepper.calculateEstimatedDays [⟨1, 1, 1, 12⟩] =
      EstimationEngine.calculateEstimatedDays
        (EstimationStepper.calculateTotalHours [⟨1, 1, 1, 12⟩]) ∧
    ComplexityPage.estimatedDays [] =
      EstimationEngine.calculateEstimatedDays (ComplexityPage.totalHours []) :=
  ⟨day_rounding_agreement_above_four.1 12 (by norm_num),
   day_rounding_agreement_above_four.2.1 [⟨1, 1, 1, 12⟩]
     (by norm_num [EstimationStepper.calculateTotalHours]),
   day_rounding_agreement_above_four.2.2 []⟩

/-- Project screen row (shared/schema screens): the stepper reads its id. -/
structure Screen where
  id : Nat
  name : String
  projectId : Nat
deriving DecidableEq, Repr

theorem jsNumOr_some_zero (x : ℚ) : jsNumOr (some x) 0 = x := by
  by_cases h : x = 0 <;> simp [jsNumOr, h]

namespace EstimationStepper

/-- Translated from `handleAddScreen` in
src/client/src/components/estimation/estimation-stepper.tsx: with no project
screens the form is left unchanged (early return); otherwise a new line item
is appended whose hours are `(complexities[0]?.hours || 0) +
(screenTypes[0]?.hours || 0)` — the additive rule. -/
def handleAddScreen (projectScreens : List Screen)
    (complexities : List ComplexityMaster) (screenTypes : List ScreenTypeMaster)
    (screens : List EstimationScreenData) : List EstimationScreenData :=
  match projectScreens with
  | [] => screens
  | firstScreen :: _ =>
    let newScreen : EstimationScreenData :=
      { screenId := firstScreen.id
        complexityId := (complexities.head?.map (fun c => c.id)).getD 0
        screenTypeId := (screenTypes.head?.map (fun st => st.id)).getD 0
        calculatedHours :=
          jsNumOr (complexities.head?.map (fun c => c.hours)) 0 +
          jsNumOr (screenTypes.head?.map (fun st => st.hours)) 0 }
    screens ++ [newScreen]

/-- Translated from `handleUpdateScreen` in estimation-stepper.tsx:
`screens.map((screen, i) => i === index ? updatedScreen : screen)`. -/
def handleUpdateScreen (screens : List EstimationScreenData) (index : Nat)
    (updatedScreen : EstimationScreenData) : List EstimationScreenData :=
  screens.enum.map (fun p => if p.1 = index then updatedScreen else p.2)

end EstimationStepper

namespace ScreenEstimationRow

/-- Translated from `handleComplexityChange` in
src/client/src/components/estimation/screen-estimation-row.tsx: look up the
selected complexity and the row's current screen type in the master lists
and recompute the hours as
`Math.round(4 * parseFloat(complexity?.multiplier || '1.00') *
parseFloat(screenType?.multiplier || '1.00'))` — the multiplicative rule.
The multiplier column is modelled as the parsed rational, none for a
null or empty string. -/
def handleComplexityChange (complexities : List ComplexityMaster)
    (screenTypes : List ScreenTypeMaster) (screen : EstimationScreenData)
    (newComplexityId : Nat) : EstimationScreenData :=
  let complexity := complexities.find? (fun c => c.id == newComplexityId)
  let screenType := screenTypes.find? (fun st => st.id == screen.screenTypeId)
  let baseHours : ℚ := 4
  let complexityMultiplier := (complexity.bind (fun c => c.multiplier)).getD 1
  let behaviorMultiplier := (screenType.bind (fun st => st.multiplier)).getD 1
  { screen with
    complexityId := newComplexityId
    calculatedHours :=
      ((round (baseHours * complexityMultiplier * behaviorMultiplier) : ℤ) : ℚ) }

/-- Translated from `handleScreenTypeChange` in screen-estimation-row.tsx,
symmetric to handleComplexityChange. -/
def handleScreenTypeChange (complexities : List ComplexityMaster)
    (screenTypes : List ScreenTypeMaster) (screen : EstimationScreenData)
    (newScreenTypeId : Nat) : EstimationScreenData :=
  let screenType := screenTypes.find? (fun st => st.id == newScreenTypeId)
  let complexity := complexities.find? (fun c => c.id == screen.complexityId)
  let baseHours : ℚ := 4
  let complexityMultiplier := (complexity.bind (fun c => c.multiplier)).getD 1
  let behaviorMultiplier := (screenType.bind (fun st => st.multiplier)).getD 1
  { screen with
    screenTypeId := newScreenTypeId
    calculatedHours :=
      ((round (baseHours * complexityMultiplier * behaviorMultiplier) : ℤ) : ℚ) }

end ScreenEstimationRow

/-- The additive calculation rule named in the spec (superseded rule one):
complexity.hours + screenType.hours. -/
def additiveRule (complexity : ComplexityMaster) (screenType : ScreenTypeMaster) : ℚ :=
  complexity.hours + screenType.hours

/-- The multiplicative calculation rule named in the spec (superseded rule
two): round(baseHours × complexity.multiplier × screenType.multiplier), the
multipliers defaulting to 1.00 when unset. -/
def multiplicativeRule (baseHours : ℚ) (complexity : ComplexityMaster)
    (screenType : ScreenTypeMaster) : ℚ :=
  ((round (baseHours * (complexity.multiplier.getD 1) *
    (screenType.multiplier.getD 1)) : ℤ) : ℚ)

/-- Concrete master data on which the three calculation rules disagree. -/
def mixDemoComplexities : List ComplexityMaster := [⟨1, "Simple", 5, some 2⟩]

def mixDemoScreenTypes : List ScreenTypeMaster := [⟨1, "Static", 3, some 3⟩]

def mixDemoProjectScreens : List Screen := [⟨10, "Login", 7⟩]

def mixDemoTable : List HourMappingRow := [⟨"Simple", "Static", 10⟩]

/-- The stepper form after two Add Screen clicks. -/
def mixDemoStep2 : List EstimationScreenData :=
  EstimationStepper.handleAddScreen mixDemoProjectScreens mixDemoComplexities
    mixDemoScreenTypes
    (EstimationStepper.handleAddScreen mixDemoProjectScreens mixDemoComplexities
      mixDemoScreenTypes [])

/-- The stepper form after additionally re-selecting the complexity of the
second line item (the complexity-change handler of its row). -/
def mixDemoScreens : List EstimationScreenData :=
  EstimationStepper.handleUpdateScreen mixDemoStep2 1
    (ScreenEstimationRow.handleComplexityChange mixDemoComplexities
      mixDemoScreenTypes (mixDemoStep2.getD 1 ⟨0, 0, 0, 0⟩) 1)

/-- Counterexample for C7: in a single estimation assembled in the stepper
(two added screens, then a complexity re-selection on the second), the first
line item keeps the additive value 8 and the second is recomputed to the
multiplicative value 24, while the mapping lookup for the one configured
(Simple, Static) pair is 10: the line items are not all produced by the
direct-mapping lookup, and two items of the same estimation come from
different rules. -/
theorem estimation_mixes_calculation_rules :
    mixDemoScreens.map (fun s => s.calculatedHours) = [8, 24] ∧
    getHoursFromMapping mixDemoTable "Simple" "Static" = 10 ∧
    ¬ (∀ s ∈ mixDemoScreens,
        s.calculatedHours = getHoursFromMapping mixDemoTable "Simple" "Static") ∧
    ¬ (∀ s1 ∈ mixDemoScreens, ∀ s2 ∈ mixDemoScreens,
        s1.calculatedHours = s2.calculatedHours) := by
  have hmix : mixDemoScreens = [⟨10, 1, 1, 8⟩, ⟨10, 1, 1, 24⟩] := by
    rw [show mixDemoScreens = EstimationStepper.handleUpdateScreen mixDemoStep2 1
      (ScreenEstimationRow.handleComplexityChange mixDemoComplexities
        mixDemoScreenTypes (mixDemoStep2.getD 1 ⟨0, 0, 0, 0⟩) 1) from rfl]
    rw [show mixDemoStep2 = [⟨10, 1, 1, 8⟩, ⟨10, 1, 1, 8⟩] from by
      rw [mixDemoStep2]
      simp only [EstimationStepper.handleAddScreen, mixDemoProjectScreens,
        mixDemoComplexities, mixDemoScreenTypes, List.head?, List.map,
        Option.map, Option.getD, jsNumOr]
      norm_num]
    simp only [EstimationStepper.handleUpdateScreen,
      ScreenEstimationRow.handleComplexityChange, mixDemoComplexities,
      mixDemoScreenTypes, List.find?, List.getD]
    norm_num [List.enum]
  refine ⟨by rw [hmix]; norm_num, by decide, ?_, ?_⟩
  · intro hall
    have h1 : (⟨10, 1, 1, 8⟩ : EstimationScreenData) ∈ mixDemoScreens := by
      rw [hmix]; simp
    have := hall _ h1
    rw [show getHoursFromMapping mixDemoTable "Simple" "Static" = 10 from by decide] at this
    norm_num at this
  · intro hall
    have h1 : (⟨10, 1, 1, 8⟩ : EstimationScreenData) ∈ mixDemoScreens := by
      rw [hmix]; simp
    have h2 : (⟨10, 1, 1, 24⟩ : EstimationScreenData) ∈ mixDemoScreens := by
      rw [hmix]; simp
    have := hall _ h1 _ h2
    norm_num at this

/-- Claim C7 as amended: in the estimation stepper a newly added line item
is computed by the additive rule (complexity hours plus screen-type hours)
and a line item whose complexity is re-selected is recomputed by the
multiplicative rule (round of 4 times the two multipliers); the
direct-mapping lookup is used only by the complexity page, so a single
estimation assembled in the stepper can contain line items produced by two
different rules, neither of them the mapping lookup. -/
theorem stepper_add_and_update_rules :
    (∀ (p : Screen) (ps : List Screen) (c : ComplexityMaster)
        (cs : List ComplexityMaster) (st : ScreenTypeMaster)
        (sts : List ScreenTypeMaster) (screens : List EstimationScreenData),
      EstimationStepper.handleAddScreen (p :: ps) (c :: cs) (st :: sts) screens =
        screens ++ [⟨p.id, c.id, st.id, additiveRule c st⟩]) ∧
    (∀ (cs : List ComplexityMaster) (sts : List ScreenTypeMaster)
        (screen : EstimationScreenData) (newId : Nat)
        (c : ComplexityMaster) (st : ScreenTypeMaster),
      cs.find? (fun x => x.id == newId) = some c →
      sts.find? (fun x => x.id == screen.screenTypeId) = some st →
      (ScreenEstimationRow.handleComplexityChange cs sts screen newId).calculatedHours =
        multiplicativeRule 4 c st) := by
  constructor
  · intro p ps c cs st sts screens
    simp only [EstimationStepper.handleAddScreen, List.head?, Option.map,
      Option.getD, jsNumOr_some_zero, additiveRule]
  · intro cs sts screen newId c st hc hst
    simp only [ScreenEstimationRow.handleComplexityChange, hc, hst,
      Option.bind, multiplicativeRule]

/-- Witness for the amended C7 on the concrete demo data: adding a screen
appends the additive value and a complexity re-selection produces the
multiplicative value. -/
theorem stepper_add_and_update_rules_witness :
    EstimationStepper.handleAddScreen mixDemoProjectScreens mixDemoComplexities
      mixDemoScreenTypes [] =
      [⟨10, 1, 1, additiveRule ⟨1, "Simple", 5, some 2⟩ ⟨1, "Static", 3, some 3⟩⟩] ∧
    (ScreenEstimationRow.handleComplexityChange mixDemoComplexities
      mixDemoScreenTypes ⟨10, 1, 1, 8⟩ 1).calculatedHours =
      multiplicativeRule 4 ⟨1, "Simple", 5, some 2⟩ ⟨1, "Static", 3, some 3⟩ :=
  ⟨stepper_add_and_update_rules.1 ⟨10, "Login", 7⟩ [] ⟨1, "Simple", 5, some 2⟩ []
      ⟨1, "Static", 3, some 3⟩ [] [],
   stepper_add_and_update_rules.2 mixDemoComplexities mixDemoScreenTypes
      ⟨10, 1, 1, 8⟩ 1 ⟨1, "Simple", 5, some 2⟩ ⟨1, "Static", 3, some 3⟩
      (by decide) (by decide)⟩

/-- Estimation header row as persisted (shared/schema estimations), with the
generated id. -/
structure EstimationRow where
  id : Nat
  projectId : Nat
  name : String
  totalHours : ℚ
  versionNumber : String
  notes : String
  createdBy : String
deriving DecidableEq, Repr

/-- Estimation header as handed to storage.createEstimation (InsertEstimation,
without id). -/
structure InsertEstimation where
  projectId : Nat
  name : String
  totalHours : ℚ
  versionNumber : String
  notes : String
  createdBy : String
deriving DecidableEq, Repr

/-- Detail row as submitted by the client (InsertEstimationDetail, without
estimationId). -/
structure InsertEstimationDetail where
  screenId : Nat
  complexityId : Nat
  screenTypeId : Nat
  calculatedHours : ℚ
deriving DecidableEq, Repr

/-- Detail row as persisted, carrying the id of its estimation. -/
structure EstimationDetailRow where
  estimationId : Nat
  screenId : Nat
  complexityId : Nat
  screenTypeId : Nat
  calculatedHours : ℚ
deriving DecidableEq, Repr

/-- The database state touched by estimation creation: the two tables and
the id sequence of the estimations table. -/
structure Store where
  estimations : List EstimationRow
  estimationDetails : List EstimationDetailRow
  nextEstimationId : Nat
deriving DecidableEq, Repr

/-- Modelled from drizzle's documented `db.transaction` semantics: the
callback runs against the current store; if it throws, every write it made
is rolled back and the store is left as it was before the transaction. -/
def dbTransaction {α : Type} (s : Store)
    (act : Store → Except String (Store × α)) : Store × Except String α :=
  match act s with
  | .ok (s2, a) => (s2, .ok a)
  | .error e => (s, .error e)

/-- Insert of the estimation header with `.returning()`: the row receives
the next generated id. -/
def insertEstimationRow (s : Store) (estimation : InsertEstimation) :
    Store × EstimationRow :=
  let row : EstimationRow :=
    { id := s.nextEstimationId
      projectId := estimation.projectId
      name := estimation.name
      totalHours := estimation.totalHours
      versionNumber := estimation.versionNumber
      notes := estimation.notes
      createdBy := estimation.createdBy }
  ({ s with
      estimations := s.estimations ++ [row]
      nextEstimationId := s.nextEstimationId + 1 }, row)

/-- Translated from `DatabaseStorage.createEstimation` in
src/server/storage.ts: inside one db.transaction, insert the header, stamp
each detail with the new header id, and insert the detail rows.
`detailFault` injects a failure of the detail-rows insert (the forced
mid-batch failure the rollback property quantifies over). -/
def createEstimation (s : Store) (estimation : InsertEstimation)
    (details : List InsertEstimationDetail) (detailFault : Bool) :
    Store × Except String EstimationRow :=
  dbTransaction s (fun tx =>
    let txAndRow := insertEstimationRow tx estimation
    let newEstimation := txAndRow.2
    let detailsWithEstimationId := details.map (fun detail =>
      { estimationId := newEstimation.id
        screenId := detail.screenId
        complexityId := detail.complexityId
        screenTypeId := detail.screenTypeId
        calculatedHours := detail.calculatedHours : EstimationDetailRow })
    if detailFault then .error "detail insert failed"
    else .ok ({ txAndRow.1 with
      estimationDetails := txAndRow.1.estimationDetails ++ detailsWithEstimationId },
      newEstimation))

/-- Claim C4: createEstimation is atomic.  When the detail insert fails
after the header insert, the whole store — in particular the estimations
table — is exactly as before, so no header row remains; when nothing fails,
the header row and every stamped detail row are appended together. -/
theorem createEstimation_atomic (s : Store) (estimation : InsertEstimation)
    (details : List InsertEstimationDetail) :
    (createEstimation s estimation details true).1 = s ∧
    (createEstimation s estimation details true).2 = .error "detail insert failed" ∧
    (createEstimation s estimation details false).1.estimations =
      s.estimations ++ [(insertEstimationRow s estimation).2] ∧
    (createEstimation s estimation details false).1.estimationDetails =
      s.estimationDetails ++ details.map (fun detail =>
        { estimationId := s.nextEstimationId
          screenId := detail.screenId
          complexityId := detail.complexityId
          screenTypeId := detail.screenTypeId
          calculatedHours := detail.calculatedHours : EstimationDetailRow }) ∧
    (createEstimation s estimation details false).2 =
      .ok (insertEstimationRow s estimation).2 := by
  refine ⟨rfl, rfl, rfl, rfl, rfl⟩

/-- The request body of POST /api/estimations as the client submits it. -/
structure EstimationHeaderPayload where
  projectId : Nat
  name : String
  totalHours : ℚ
  versionNumber : String
  notes : Option String
deriving DecidableEq, Repr

/-- The full POST /api/estimations request body. -/
structure EstimationRequest where
  estimation : EstimationHeaderPayload
  details : List InsertEstimationDetail
deriving DecidableEq, Repr

/-- The responses the POST /api/estimations handler can produce. -/
inductive HttpResponse where
  | created (estimation : EstimationRow)
  | unauthorized
  | serverError (message : String)
deriving DecidableEq, Repr

/-- Translated from the POST /api/estimations handler in the server routes
file: request validation is skipped (the handler's comment says
temporarily, and createEstimationRequestSchema is defined but never
applied); with an authenticated user the handler copies the submitted
header fields — totalHours included, unrecomputed and unverified — into the
insert object (`notes: requestData.estimation.notes || ''`) and persists it
with the submitted details. -/
def postEstimations (s : Store) (requestData : EstimationRequest)
    (userId : Option String) : Store × HttpResponse :=
  match userId with
  | none => (s, .unauthorized)
  | some uid =>
    let estimation : InsertEstimation :=
      { projectId := requestData.estimation.projectId
        name := requestData.estimation.name
        totalHours := requestData.estimation.totalHours
        versionNumber := requestData.estimation.versionNumber
        notes := jsStrOr requestData.estimation.notes ""
        createdBy := uid }
    match createEstimation s estimation requestData.details false with
    | (s2, .ok newEstimation) => (s2, .created newEstimation)
    | (s2, .error e) => (s2, .serverError e)

/-- The form state of the estimation stepper
(EstimationFormData in src/client/src/lib/types.ts). -/
structure EstimationFormData where
  projectId : Nat
  name : String
  versionNumber : String
  notes : String
  screens : List EstimationScreenData
deriving DecidableEq, Repr

namespace EstimationStepper

/-- Translated from `createEstimationMutation.mutationFn` in
estimation-stepper.tsx: the submitted header carries
`totalHours = data.screens.reduce((sum, screen) => sum +
screen.calculatedHours, 0)` and `notes: data.notes || undefined`, and the
submitted details are the form's screens. -/
def mutationRequest (data : EstimationFormData) : EstimationRequest :=
  let totalHours :=
    data.screens.foldl (fun sum screen => sum + screen.calculatedHours) 0
  { estimation :=
      { projectId := data.projectId
        name := data.name
        totalHours := totalHours
        versionNumber := data.versionNumber
        notes := if data.notes = "" then none else some data.notes }
    details := data.screens.map (fun screen =>
      { screenId := screen.screenId
        complexityId := screen.complexityId
        screenTypeId := screen.screenTypeId
        calculatedHours := screen.calculatedHours }) }

end EstimationStepper

/-- Claim C3: the header submitted by the stepper carries a totalHours equal
to the sum of the calculatedHours of the submitted detail rows, and the
server persists the submitted totalHours as is: the persisted header is
appended with exactly the request's totalHours, with no recomputation from
the details. -/
theorem submitted_total_is_sum_and_trusted :
    (∀ data : EstimationFormData,
      (EstimationStepper.mutationRequest data).estimation.totalHours =
        ((EstimationStepper.mutationRequest data).details.map
          (fun d => d.calculatedHours)).sum) ∧
    (∀ (s : Store) (req : EstimationRequest) (uid : String),
      ∃ row : EstimationRow,
        (postEstimations s req (some uid)).2 = .created row ∧
        (postEstimations s req (some uid)).1.estimations = s.estimations ++ [row] ∧
        row.totalHours = req.estimation.totalHours) := by
  constructor
  · intro data
    show data.screens.foldl (fun sum screen => sum + screen.calculatedHours) 0 = _
    rw [foldl_add_eq_sum, zero_add]
    simp only [EstimationStepper.mutationRequest, List.map_map]
    rfl
  · intro s req uid
    exact ⟨_, rfl, rfl, rfl⟩

/-- A creation request whose header has an empty name, an empty
versionNumber and a negative totalHours — input the claimed contract says
must be rejected with a ValidationError. -/
def invalidHeaderRequest : EstimationRequest :=
  { estimation :=
      { projectId := 1
        name := ""
        totalHours := -5
        versionNumber := ""
        notes := none }
    details := [⟨6, 1, 1, -5⟩] }

/-- A database with empty estimation tables. -/
def emptyStore : Store :=
  { estimations := [], estimationDetails := [], nextEstimationId := 1 }

/-- Claim C8 evaluated at the failing input: the POST /api/estimations
handler performs no header validation (its comment says validation is
skipped temporarily and createEstimationRequestSchema is never applied), so
a request with empty name, empty versionNumber and totalHours -5 is answered
201 Created and its header row is persisted, where the claimed contract
requires a ValidationError and no persisted row. -/
theorem postEstimations_accepts_invalid_header :
    (postEstimations emptyStore invalidHeaderRequest (some "user-1")).2 =
      .created ⟨1, 1, "", -5, "", "", "user-1"⟩ ∧
    (⟨1, 1, "", -5, "", "", "user-1"⟩ : EstimationRow) ∈
      (postEstimations emptyStore invalidHeaderRequest (some "user-1")).1.estimations := by
  refine ⟨rfl, ?_⟩
  rw [show (postEstimations emptyStore invalidHeaderRequest (some "user-1")).1.estimations
    = [⟨1, 1, "", -5, "", "", "user-1"⟩] from rfl]
  exact List.mem_singleton.mpr rfl

end EstimationTool
